import Mathlib

/-
Shallow embedding of the ProfitFlow bookkeeping application (src/app.py).

Conventions of the embedding:
* All monetary amounts are integer minor units, modelled as Int, exactly
  as stored by the application.
* Python float values that enter monetary arithmetic (the two percent
  rates of the configuration record) are modelled as exact rationals;
  the Python builtin round is round-half-even, modelled by rndHE below.
* Python strings are modelled as Lean String values; every string
  manipulation of the source (strip, replace, count, the Decimal and
  int constructors, the LIKE pattern match performed by the database)
  is re-implemented on the character list so that it evaluates inside
  the kernel.  Whitespace handling is modelled for the ASCII whitespace
  characters; case folding is ASCII case folding, matching the SQLite
  LIKE operator that executes the ilike filter of the source.
* The Decimal context of Python carries a precision of 28 significant
  digits; the only arithmetic the source performs on a Decimal is one
  exact multiplication by 100, which is exact at every input relevant
  here, so Decimal values are modelled as exact pairs mantissa/exponent.
  Underscore separators inside Python numeric literals are not modelled.
* Fallible code is modelled with Except: PyErr.badRequest is a Flask
  abort(400) and PyErr.exc is an uncaught Python exception.
* Database rows are Lean structures; a query with order_by is modelled
  as List.mergeSort with the corresponding boolean relation, and the
  ilike filter as a List.filter with a LIKE matcher.  The identifier
  column is irrelevant to every property treated here and is omitted;
  created_at timestamps are abstract naturals.
-/

deriving instance DecidableEq for Except

namespace ProfitFlow

/-! ## Character and string utilities -/

/-- ASCII digit test. -/
def isAsciiDigit (c : Char) : Bool := '0' ≤ c && c ≤ '9'

/-- ASCII lower-casing, the case folding used by SQLite for LIKE. -/
def asciiLower (c : Char) : Char :=
  if 'A' ≤ c && c ≤ 'Z' then Char.ofNat (c.toNat + 32) else c

/-- ASCII whitespace, the characters stripped by Python str.strip that
can occur in form input. -/
def isPySpace (c : Char) : Bool :=
  c = ' ' || c = '\t' || c = '\n' || c = '\x0d' || c = '\x0b' || c = '\x0c'

/-- Model of Python str.strip on a character list. -/
def pyStripChars (l : List Char) : List Char :=
  ((l.dropWhile isPySpace).reverse.dropWhile isPySpace).reverse

/-- Model of Python str.strip. -/
def pyStrip (s : String) : String := String.mk (pyStripChars s.data)

/-- Replacement of every occurrence of one character by another, the
effect of Python str.replace with single-character arguments. -/
def replaceChar (a b : Char) (l : List Char) : List Char :=
  l.map (fun c => if c = a then b else c)

/-- Removal of every occurrence of a character, the effect of Python
str.replace with an empty replacement string. -/
def removeChar (a : Char) (l : List Char) : List Char :=
  l.filter (fun c => c ≠ a)

/-- Count of the occurrences of a character, Python str.count. -/
def countChar (a : Char) (l : List Char) : Nat :=
  (l.filter (fun c => c = a)).length

/-- Removal of every occurrence of the substring consisting of the two
characters R and dollar, scanning left to right: the effect of the
replace of the currency marker inside parse_valor_to_centavos. -/
def removeCurrencyMark : List Char → List Char
  | 'R' :: '$' :: rest => removeCurrencyMark rest
  | c :: rest => c :: removeCurrencyMark rest
  | [] => []

/-! ## Case-insensitive equality and the SQL LIKE matcher -/

/-- Case-insensitive equality of character lists under ASCII folding. -/
def eqCI : List Char → List Char → Bool
  | [], [] => true
  | c :: p, d :: s => asciiLower c = asciiLower d && eqCI p s
  | _, _ => false

/-- Fuel-indexed SQL LIKE matcher: the percent character matches any
sequence of characters, the underscore character matches exactly one
character, every other pattern character matches itself up to ASCII
case folding.  This is the semantics the SQLite LIKE operator gives to
the ilike filter of latest_compra_custo, with the product name of the
sale as the pattern.  The fuel argument only drives the recursion; it
is chosen large enough in likeMatch below. -/
def likeMatchFuel : Nat → List Char → List Char → Bool
  | 0, _, _ => false
  | _ + 1, [], s => s.isEmpty
  | fuel + 1, c :: p, s =>
    if c = '%' then
      likeMatchFuel fuel p s ||
        (match s with
         | [] => false
         | _ :: rest => likeMatchFuel fuel (c :: p) rest)
    else
      match s with
      | [] => false
      | d :: rest => (c = '_' || asciiLower c = asciiLower d) && likeMatchFuel fuel p rest

/-- SQL LIKE match of a string against a pattern. -/
def likeMatch (p s : List Char) : Bool :=
  likeMatchFuel (p.length + s.length + 1) p s

/-- Absence of the LIKE wildcard characters from a pattern. -/
def noWild (p : List Char) : Bool :=
  p.all (fun c => c ≠ '%' && c ≠ '_')

/-! ## Calendar dates -/

/-- Calendar date, modelling datetime.date.  Python orders dates
lexicographically on year, month, day, and so does the storage layer
on a date column. -/
structure SDate where
  y : Nat
  m : Nat
  d : Nat
deriving DecidableEq, Repr

/-- Strict lexicographic order on dates, the Python date order. -/
def dateLtB (a b : SDate) : Bool :=
  a.y < b.y || (a.y = b.y && (a.m < b.m || (a.m = b.m && a.d < b.d)))

/-- Reflexive lexicographic order on dates. -/
def dateLeB (a b : SDate) : Bool :=
  dateLtB a b || a = b

/-- Leap-year test of the proleptic Gregorian calendar used by
datetime.date. -/
def isLeap (y : Nat) : Bool :=
  (y % 4 = 0 && y % 100 ≠ 0) || y % 400 = 0

/-- Number of days of a month, as validated by datetime.date. -/
def daysInMonth (y m : Nat) : Nat :=
  if m = 2 then (if isLeap y then 29 else 28)
  else if m = 4 || m = 6 || m = 9 || m = 11 then 30
  else 31

/-- Validity of a calendar date, the check performed by the
datetime.date constructor. -/
def validDate (a : SDate) : Bool :=
  1 ≤ a.y && a.y ≤ 9999 && 1 ≤ a.m && a.m ≤ 12 && 1 ≤ a.d && a.d ≤ daysInMonth a.y a.m

/-- Value of a list of ASCII digits read in base ten. -/
def digitsToNat (l : List Char) : Nat :=
  l.foldl (fun acc c => 10 * acc + (c.toNat - 48)) 0

/-- Splitting of a character list at every occurrence of a separator
character, Python str.split with one argument. -/
def splitOnChar (sep : Char) : List Char → List (List Char)
  | [] => [[]]
  | c :: rest =>
    let r := splitOnChar sep rest
    if c = sep then [] :: r
    else
      match r with
      | g :: gs => (c :: g) :: gs
      | [] => [[c]]

/-- Model of datetime.strptime with the format year-month-day: three
dash-separated digit groups, the year of at most four digits, month and
day of at most two, forming a valid calendar date. -/
def parseISO (s : String) : Option SDate :=
  match splitOnChar '-' s.data with
  | [ys, ms, ds] =>
    if ys ≠ [] && ys.all isAsciiDigit && ys.length ≤ 4 &&
       ms ≠ [] && ms.all isAsciiDigit && ms.length ≤ 2 &&
       ds ≠ [] && ds.all isAsciiDigit && ds.length ≤ 2 then
      let a : SDate := ⟨digitsToNat ys, digitsToNat ms, digitsToNat ds⟩
      if validDate a then some a else none
    else none
  | _ => none

/-- Zero-padded decimal rendering of a natural number to a given
minimal width. -/
def padNum (width n : Nat) : List Char :=
  let r := (Nat.repr n).data
  List.replicate (width - r.length) '0' ++ r

/-- Model of date.isoformat. -/
def isoStr (a : SDate) : String :=
  String.mk (padNum 4 a.y ++ '-' :: padNum 2 a.m ++ '-' :: padNum 2 a.d)

/-! ## Python numeric values and parsers -/

/-- Value classes a Python Decimal or float can take in this program: a
finite value with integer mantissa and decimal exponent, a quiet NaN, or
an infinity of either sign. -/
inductive PyDec where
  | fin (m : Int) (e : Int)
  | nan
  | inf
deriving DecidableEq, Repr

/-- Sign parsing shared by the Python numeric string grammars. -/
def parseSign : List Char → (Int × List Char)
  | '+' :: rest => (1, rest)
  | '-' :: rest => (-1, rest)
  | l => (1, l)

/-- Exponent clause of the Python numeric string grammars: the letter e
in either case, an optional sign and a nonempty digit group ending the
string. -/
def parseExpTail (l : List Char) : Option Int :=
  match l with
  | [] => some 0
  | c :: rest =>
    if c = 'e' || c = 'E' then
      let (sg, r1) := parseSign rest
      if r1 ≠ [] && r1.all isAsciiDigit then some (sg * (digitsToNat r1 : Int)) else none
    else none

/-- Numeric body of the Decimal and float grammars: digits with an
optional point, at least one digit overall, then an optional exponent
clause.  Returns mantissa magnitude and decimal exponent. -/
def parseNumericBody (l : List Char) : Option (Nat × Int) :=
  let ip := l.takeWhile isAsciiDigit
  let r1 := l.drop ip.length
  match r1 with
  | '.' :: r2 =>
    let fp := r2.takeWhile isAsciiDigit
    let r3 := r2.drop fp.length
    if ip = [] && fp = [] then none
    else
      match parseExpTail r3 with
      | some ex => some (digitsToNat (ip ++ fp), ex - (fp.length : Int))
      | none => none
  | _ =>
    if ip = [] then none
    else
      match parseExpTail r1 with
      | some ex => some (digitsToNat ip, ex)
      | none => none

/-- Model of the string acceptance of the Decimal constructor: an
optionally signed numeric body, or the case-insensitive keywords nan
and snan with an optional trailing digit group, or inf and infinity. -/
def parseDecimalChars (l : List Char) : Option PyDec :=
  let (sg, r) := parseSign l
  let low := r.map asciiLower
  if low = ['i', 'n', 'f'] || low = ['i', 'n', 'f', 'i', 'n', 'i', 't', 'y'] then
    some PyDec.inf
  else if low.take 3 = ['n', 'a', 'n'] && (low.drop 3).all isAsciiDigit then
    some PyDec.nan
  else if low.take 4 = ['s', 'n', 'a', 'n'] && (low.drop 4).all isAsciiDigit then
    some PyDec.nan
  else
    match parseNumericBody r with
    | some (mag, ex) => some (PyDec.fin (sg * (mag : Int)) ex)
    | none => none

/-- Model of the string acceptance of the float constructor: an
optionally signed numeric body or the bare case-insensitive keywords
nan, inf, infinity, after stripping surrounding whitespace. -/
def parseFloatChars (l0 : List Char) : Option PyDec :=
  let l := pyStripChars l0
  let (sg, r) := parseSign l
  let low := r.map asciiLower
  if low = ['i', 'n', 'f'] || low = ['i', 'n', 'f', 'i', 'n', 'i', 't', 'y'] then
    some PyDec.inf
  else if low = ['n', 'a', 'n'] then
    some PyDec.nan
  else
    match parseNumericBody r with
    | some (mag, ex) => some (PyDec.fin (sg * (mag : Int)) ex)
    | none => none

/-- Exact integer truncation of a decimal mantissa shifted by a power
of ten: the value of the Python expression int(d) for a finite Decimal
d with mantissa m and exponent k.  Python int truncates toward zero,
which is Int.tdiv. -/
def shift10 (m k : Int) : Int :=
  if 0 ≤ k then m * (10 : Int) ^ k.toNat else m.tdiv ((10 : Int) ^ (-k).toNat)

/-- Errors of the embedded request handlers: badRequest is a Flask
abort(400), exc is an uncaught Python exception. -/
inductive PyErr where
  | badRequest
  | exc
deriving DecidableEq, Repr

/-- Model of parse_valor_to_centavos of the source: strip the input,
delete the currency marker and the spaces, normalise the separators
with the comma/period heuristic, read the result with the Decimal
constructor falling back to zero, finally take int of the Decimal
value times 100.  The final int raises on a non-finite Decimal value,
which the source does not guard, hence the Except. -/
def parse_valor_to_centavos (s : String) : Except Unit Int :=
  let l0 := removeChar ' ' (removeCurrencyMark (pyStripChars s.data))
  let l :=
    if countChar ',' l0 = 1 && 1 ≤ countChar '.' l0 then
      replaceChar ',' '.' (removeChar '.' l0)
    else
      replaceChar ',' '.' l0
  match parseDecimalChars l with
  | some (PyDec.fin m e) => Except.ok (shift10 m (e + 2))
  | some _ => Except.error ()
  | none => Except.ok (shift10 0 2)

/-- Model of parse_percent of the source: strip the input, delete the
percent signs, turn commas into periods, read the result as a float,
falling back to zero on failure.  The float constructor itself never
raises an uncaught exception here, so the result is total. -/
def parse_percent (s : String) : PyDec :=
  let l := replaceChar ',' '.' (removeChar '%' (pyStripChars s.data))
  match parseFloatChars l with
  | some v => v
  | none => PyDec.fin 0 0

/-- Model of the int constructor of Python on a string: surrounding
whitespace is stripped and an optionally signed nonempty digit group is
required, anything else raising ValueError. -/
def pyInt (s : String) : Except Unit Int :=
  let l := pyStripChars s.data
  let (sg, r) := parseSign l
  if r ≠ [] && r.all isAsciiDigit then Except.ok (sg * (digitsToNat r : Int))
  else Except.error ()

/-! ## Currency formatting -/

/-- Thousands grouping of a reversed digit list: a comma after every
third digit, the effect of the comma option of a Python format
specifier (applied here to the reversed repr). -/
def groupRev : List Char → List Char
  | a :: b :: c :: d :: rest => a :: b :: c :: ',' :: groupRev (d :: rest)
  | l => l

/-- Decimal rendering of a natural number with comma thousands
grouping, the Python format specifier with the comma option. -/
def fmtComma (n : Nat) : List Char :=
  (groupRev (Nat.repr n).data.reverse).reverse

/-- Model of the moeda template filter of the source: an optional
minus sign, the currency marker, the integer amount of reais with
comma grouping, a comma, the two-digit cent amount; then the three
chained replace calls, which send every comma to X, every period to a
comma, and every X to a period. -/
def moeda (centavos : Int) : String :=
  let sign : List Char := if centavos < 0 then ['-'] else []
  let reais := centavos.natAbs / 100
  let c := centavos.natAbs % 100
  let base := sign ++ 'R' :: '$' :: ' ' :: fmtComma reais ++ ',' :: padNum 2 c
  String.mk (replaceChar 'X' '.' (replaceChar '.' ',' (replaceChar ',' 'X' base)))

/-! ## Rounding and the fee calculator -/

/-- Round-half-even on rationals, the semantics of the Python builtin
round applied in calc_taxas.  The float products of the source are
modelled as exact rationals. -/
def rndHE (q : ℚ) : ℤ :=
  if q - (⌊q⌋ : ℚ) < 1 / 2 then ⌊q⌋
  else if (1 : ℚ) / 2 < q - (⌊q⌋ : ℚ) then ⌊q⌋ + 1
  else if ⌊q⌋ % 2 = 0 then ⌊q⌋ else ⌊q⌋ + 1

/-- Configuration record: the two percent rates (Python floats,
modelled as exact rationals) and the fixed per-item fee in minor
units. -/
structure Config where
  marketplace_percent : ℚ
  imposto_percent : ℚ
  taxa_fixa_cent : ℤ

/-- Model of calc_taxas of the source: each percent rate divided by
100, multiplied by the revenue, rounded with the builtin round, and the
two terms added. -/
def calc_taxas (cfg : Config) (receita_cent : ℤ) : ℤ :=
  rndHE ((receita_cent : ℚ) * (cfg.marketplace_percent / 100)) +
    rndHE ((receita_cent : ℚ) * (cfg.imposto_percent / 100))

/-- Restatement of the fee formula in the words of the specification:
fees equal round of revenue times marketplace percent over 100 plus
round of revenue times tax percent over 100, each term rounded
independently with the round-half-even policy.  Written from the
specification text, to be compared with calc_taxas. -/
def computeFees_spec (cfg : Config) (revenue : ℤ) : ℤ :=
  rndHE ((revenue : ℚ) * cfg.marketplace_percent / 100) +
    rndHE ((revenue : ℚ) * cfg.imposto_percent / 100)

/-! ## Ledger entities -/

/-- Purchase row.  The identifier column is omitted; created_at is an
abstract timestamp. -/
structure Compra where
  produto : String
  custo_unitario_cent : ℤ
  quantidade : ℤ
  data : SDate
  created_at : ℕ
deriving DecidableEq, Repr

/-- Sale row. -/
structure Venda where
  produto : String
  preco_unitario_cent : ℤ
  quantidade : ℤ
  data : SDate
  custo_unitario_override_cent : Option ℤ
  created_at : ℕ
deriving DecidableEq, Repr

/-- Invoice row. -/
structure Boleto where
  descricao : String
  valor_centavos : ℤ
  vencimento : Option SDate
  status : String
  created_at : ℕ
deriving DecidableEq, Repr

/-- Sort relation of an order_by on date descending then created_at
descending: a precedes b when the key of b is at most the key of a. -/
def descDateCreated (da : SDate) (ca : ℕ) (db : SDate) (cb : ℕ) : Bool :=
  dateLtB db da || (db = da && cb ≤ ca)

/-- Ordering used by the purchase queries of the source. -/
def compraSortLe (a b : Compra) : Bool :=
  descDateCreated a.data a.created_at b.data b.created_at

/-- Ordering used by the sale queries of the source. -/
def vendaSortLe (a b : Venda) : Bool :=
  descDateCreated a.data a.created_at b.data b.created_at

/-- Ordering used by the boleto listing of the source: created_at
descending only. -/
def boletoSortLe (a b : Boleto) : Bool :=
  b.created_at ≤ a.created_at

/-- Model of latest_compra_custo of the source: filter the purchases
whose product name matches the given name under ilike (the name acting
as a LIKE pattern), order by date descending then created_at
descending, and take the unit cost of the first row, zero when the
result set is empty. -/
def latest_compra_custo (compras : List Compra) (produto : String) : ℤ :=
  match (compras.filter (fun c => likeMatch produto.data c.produto.data)).mergeSort
      compraSortLe with
  | [] => 0
  | c :: _ => c.custo_unitario_cent

/-- Model of custo_para_venda of the source: the explicit override when
present, else the purchase lookup. -/
def custo_para_venda (compras : List Compra) (v : Venda) : ℤ :=
  match v.custo_unitario_override_cent with
  | some k => k
  | none => latest_compra_custo compras v.produto

/-- Restatement of resolveUnitCost in the words of the specification:
the override when present, else the unit cost of the most recent
purchase whose product name matches the product of the sale
case-insensitively (exact match), else zero.  Written from the
specification text, to be compared with custo_para_venda. -/
def specResolveUnitCost (compras : List Compra) (v : Venda) : ℤ :=
  match v.custo_unitario_override_cent with
  | some k => k
  | none =>
    match (compras.filter (fun c => eqCI v.produto.data c.produto.data)).mergeSort
        compraSortLe with
    | [] => 0
    | c :: _ => c.custo_unitario_cent

/-! ## Dashboard -/

/-- Model of month_bounds of the source for a given year and month:
the first day of the month and, exclusively, the first day of the next
month, December rolling over to January of the next year. -/
def month_bounds (y m : ℕ) : SDate × SDate :=
  (⟨y, m, 1⟩, if m = 12 then ⟨y + 1, 1, 1⟩ else ⟨y, m + 1, 1⟩)

/-- One line of the dashboard table, mirroring the dictionary built by
the dashboard view: the sale, its unit price, the revenue, the resolved
unit cost, the fees and the profit of the line. -/
structure Linha where
  venda : Venda
  preco_unitario : ℤ
  receita : ℤ
  custo : ℤ
  taxas : ℤ
  lucro : ℤ
deriving DecidableEq, Repr

/-- Per-sale figures computed by the dashboard loop of the source. -/
def dashLinha (cfg : Config) (compras : List Compra) (v : Venda) : Linha :=
  let receita := v.preco_unitario_cent * v.quantidade
  let custo_u := custo_para_venda compras v
  let custo := custo_u * v.quantidade
  let taxas := calc_taxas cfg receita + cfg.taxa_fixa_cent * v.quantidade
  let lucro := receita - taxas - custo
  ⟨v, v.preco_unitario_cent, receita, custo_u, taxas, lucro⟩

/-- Month filter of the dashboard query: date at least the start bound
and strictly before the end bound. -/
def inMonth (y m : ℕ) (v : Venda) : Bool :=
  dateLeB (month_bounds y m).1 v.data && dateLtB v.data (month_bounds y m).2

/-- Sales selected by the dashboard query of the source: the month
filter followed by the order_by on date descending then created_at
descending. -/
def dashVendas (vendas : List Venda) (y m : ℕ) : List Venda :=
  (vendas.filter (inMonth y m)).mergeSort vendaSortLe

/-- Result record of the dashboard view. -/
structure DashResult where
  linhas : List Linha
  tot_receita : ℤ
  tot_taxas : ℤ
  tot_custo : ℤ
  tot_lucro : ℤ

/-- Model of the dashboard view of the source: the selected sales are
mapped through the per-line computation and the four totals accumulate
revenue, fees, total cost and profit of every line. -/
def dashboardModel (cfg : Config) (compras : List Compra) (vendas : List Venda)
    (y m : ℕ) : DashResult :=
  let L := (dashVendas vendas y m).map (dashLinha cfg compras)
  { linhas := L
    tot_receita := (L.map Linha.receita).sum
    tot_taxas := (L.map Linha.taxas).sum
    tot_custo := (L.map (fun r => r.custo * r.venda.quantidade)).sum
    tot_lucro := (L.map Linha.lucro).sum }

/-! ## Request forms and the CRUD handlers -/

/-- Value of the Python idiom form.get(name) or default: the default
when the field is absent or empty, the submitted string otherwise. -/
def orDefault (o : Option String) (d : String) : String :=
  match o with
  | none => d
  | some s => if s = "" then d else s

/-- Quantity coercion of the create and update handlers: the literal 1
when the field is absent or empty, otherwise the int constructor
applied to the submitted string, which raises on non-integer input. -/
def quantParse (o : Option String) : Except Unit Int :=
  match o with
  | none => Except.ok 1
  | some s => if s = "" then Except.ok 1 else pyInt s

/-- Form of the purchase create and update handlers. -/
structure CompraForm where
  produto : Option String
  custo : Option String
  quantidade : Option String
  data : Option String

/-- Form of the sale create and update handlers. -/
structure VendaForm where
  produto : Option String
  preco : Option String
  quantidade : Option String
  data : Option String
  custo : Option String

/-- Form of the boleto update handler. -/
structure BoletoForm where
  descricao : Option String
  valor : Option String
  vencimento : Option String
  status : Option String

/-- Model of create_compra of the source, in the order of the source:
the quantity is coerced first (the int constructor may raise), the
stripped product is then required to be nonempty, the cost is parsed
(may raise on a non-finite Decimal), and the date falls back to today
when absent or unparseable. -/
def create_compra (today : SDate) (now : ℕ) (f : CompraForm) : Except PyErr Compra :=
  let prod := pyStrip (orDefault f.produto "")
  match quantParse f.quantidade with
  | Except.error _ => Except.error PyErr.exc
  | Except.ok qtd =>
    if prod = "" then Except.error PyErr.badRequest
    else
      match parse_valor_to_centavos (orDefault f.custo "0") with
      | Except.error _ => Except.error PyErr.exc
      | Except.ok c_cent =>
        let data := (parseISO (orDefault f.data (isoStr today))).getD today
        Except.ok ⟨prod, c_cent, qtd, data, now⟩

/-- Model of create_venda of the source: like create_compra, with the
optional cost override parsed only when the field is nonempty. -/
def create_venda (today : SDate) (now : ℕ) (f : VendaForm) : Except PyErr Venda :=
  let prod := pyStrip (orDefault f.produto "")
  match quantParse f.quantidade with
  | Except.error _ => Except.error PyErr.exc
  | Except.ok qtd =>
    if prod = "" then Except.error PyErr.badRequest
    else
      match parse_valor_to_centavos (orDefault f.preco "0") with
      | Except.error _ => Except.error PyErr.exc
      | Except.ok preco_cent =>
        let custoStr := orDefault f.custo ""
        let custoRes : Except Unit (Option Int) :=
          if custoStr = "" then Except.ok none
          else
            match parse_valor_to_centavos custoStr with
            | Except.error e => Except.error e
            | Except.ok k => Except.ok (some k)
        match custoRes with
        | Except.error _ => Except.error PyErr.exc
        | Except.ok custo_cent =>
          let data := (parseISO (orDefault f.data (isoStr today))).getD today
          Except.ok ⟨prod, preco_cent, qtd, data, custo_cent, now⟩

/-- Model of update_compra of the source: the stripped product is
assigned without any validation, cost and quantity are re-parsed as in
create, and the date is only replaced when the submitted string is
nonempty and parses. -/
def update_compra (c : Compra) (f : CompraForm) : Except PyErr Compra :=
  let prod := pyStrip (orDefault f.produto "")
  match parse_valor_to_centavos (orDefault f.custo "0") with
  | Except.error _ => Except.error PyErr.exc
  | Except.ok c_cent =>
    match quantParse f.quantidade with
    | Except.error _ => Except.error PyErr.exc
    | Except.ok qtd =>
      let dStr := orDefault f.data ""
      let data := if dStr = "" then c.data else (parseISO dStr).getD c.data
      Except.ok ⟨prod, c_cent, qtd, data, c.created_at⟩

/-- Model of update_venda of the source: the stripped product is
assigned without any validation, price and quantity are re-parsed, the
override is set from the submitted cost field alone (absent or empty
clears it), and the date is only replaced when the submitted string is
nonempty and parses. -/
def update_venda (v : Venda) (f : VendaForm) : Except PyErr Venda :=
  let prod := pyStrip (orDefault f.produto "")
  match parse_valor_to_centavos (orDefault f.preco "0") with
  | Except.error _ => Except.error PyErr.exc
  | Except.ok preco_cent =>
    match quantParse f.quantidade with
    | Except.error _ => Except.error PyErr.exc
    | Except.ok qtd =>
      let custoStr := orDefault f.custo ""
      let custoRes : Except Unit (Option Int) :=
        if custoStr = "" then Except.ok none
        else
          match parse_valor_to_centavos custoStr with
          | Except.error e => Except.error e
          | Except.ok k => Except.ok (some k)
      match custoRes with
      | Except.error _ => Except.error PyErr.exc
      | Except.ok override =>
        let dStr := orDefault f.data ""
        let data := if dStr = "" then v.data else (parseISO dStr).getD v.data
        Except.ok ⟨prod, preco_cent, qtd, data, override, v.created_at⟩

/-- Model of update_boleto of the source: the stripped description is
required to be nonempty before any assignment, the amount is re-parsed,
the due date is replaced by the parsed submitted string or cleared, and
the status is taken from the form with default aberto. -/
def update_boleto (b : Boleto) (f : BoletoForm) : Except PyErr Boleto :=
  let desc := pyStrip (orDefault f.descricao "")
  if desc = "" then Except.error PyErr.badRequest
  else
    match parse_valor_to_centavos (orDefault f.valor "0") with
    | Except.error _ => Except.error PyErr.exc
    | Except.ok cent =>
      let vStr := orDefault f.vencimento ""
      let venc := if vStr = "" then none else parseISO vStr
      let status := pyStrip (orDefault f.status "aberto")
      Except.ok ⟨desc, cent, venc, status, b.created_at⟩

/-! ## List endpoints -/

/-- Model of the purchases listing query: order by date descending then
created_at descending. -/
def comprasList (l : List Compra) : List Compra := l.mergeSort compraSortLe

/-- Model of the sales listing query: order by date descending then
created_at descending. -/
def vendasList (l : List Venda) : List Venda := l.mergeSort vendaSortLe

/-- Model of the boleto listing query of the source: order by
created_at descending only. -/
def boletosList (l : List Boleto) : List Boleto := l.mergeSort boletoSortLe

/-- Ordering the specification claims for the boleto listing: date
descending then created_at descending, an absent due date ranking below
every present one.  Written from the specification text, to be compared
with boletosList. -/
def specBoletoSortLe (a b : Boleto) : Bool :=
  match a.vencimento, b.vencimento with
  | some da, some db => descDateCreated da a.created_at db b.created_at
  | some _, none => true
  | none, some _ => false
  | none, none => b.created_at ≤ a.created_at

/-- Boleto listing as the specification describes it. -/
def specBoletosList (l : List Boleto) : List Boleto := l.mergeSort specBoletoSortLe

/-! ## Helper lemmas -/

theorem rndHE_intCast (n : ℤ) : rndHE (n : ℚ) = n := by
  unfold rndHE
  rw [Int.floor_intCast, sub_self]
  norm_num

theorem rndHE_lt_half (q : ℚ) (n : ℤ) (h1 : (n : ℚ) ≤ q) (h2 : q < (n : ℚ) + 1 / 2) :
    rndHE q = n := by
  have hf : ⌊q⌋ = n := by
    rw [Int.floor_eq_iff]
    exact ⟨h1, by linarith⟩
  unfold rndHE
  rw [hf, if_pos (by linarith)]

theorem dateLtB_iff (a b : SDate) :
    dateLtB a b = true ↔
      a.y < b.y ∨ (a.y = b.y ∧ (a.m < b.m ∨ (a.m = b.m ∧ a.d < b.d))) := by
  simp [dateLtB]

theorem dateLtB_trans {a b c : SDate} (h1 : dateLtB a b = true) (h2 : dateLtB b c = true) :
    dateLtB a c = true := by
  rw [dateLtB_iff] at h1 h2 ⊢
  omega

theorem dateLtB_conn {a b : SDate} (h1 : dateLtB a b = false) (h2 : dateLtB b a = false) :
    a = b := by
  obtain ⟨ay, am, ad⟩ := a
  obtain ⟨by0, bm, bd⟩ := b
  rw [Bool.eq_false_iff, ne_eq, dateLtB_iff] at h1 h2
  dsimp only at h1 h2
  simp only [SDate.mk.injEq]
  omega

theorem descDateCreated_iff (da : SDate) (ca : ℕ) (db : SDate) (cb : ℕ) :
    descDateCreated da ca db cb = true ↔ dateLtB db da = true ∨ (db = da ∧ cb ≤ ca) := by
  simp [descDateCreated]

theorem descDateCreated_refl (da : SDate) (ca : ℕ) : descDateCreated da ca da ca = true := by
  simp [descDateCreated]

theorem descDateCreated_total (da : SDate) (ca : ℕ) (db : SDate) (cb : ℕ) :
    (descDateCreated da ca db cb || descDateCreated db cb da ca) = true := by
  rw [Bool.or_eq_true, descDateCreated_iff, descDateCreated_iff]
  cases h1 : dateLtB db da with
  | true => exact Or.inl (Or.inl rfl)
  | false =>
    cases h2 : dateLtB da db with
    | true => exact Or.inr (Or.inl rfl)
    | false =>
      have he := dateLtB_conn h2 h1
      rcases Nat.le_total cb ca with h | h
      · exact Or.inl (Or.inr ⟨he.symm ▸ rfl, h⟩)
      · exact Or.inr (Or.inr ⟨he ▸ rfl, h⟩)

theorem descDateCreated_trans {da db dc : SDate} {ca cb cc : ℕ}
    (h1 : descDateCreated da ca db cb = true) (h2 : descDateCreated db cb dc cc = true) :
    descDateCreated da ca dc cc = true := by
  rw [descDateCreated_iff] at h1 h2 ⊢
  rcases h1 with h1 | ⟨he1, hc1⟩
  · rcases h2 with h2 | ⟨he2, hc2⟩
    · exact Or.inl (dateLtB_trans h2 h1)
    · exact Or.inl (he2 ▸ h1)
  · rcases h2 with h2 | ⟨he2, hc2⟩
    · exact Or.inl (he1 ▸ h2)
    · exact Or.inr ⟨he2.trans he1, hc2.trans hc1⟩

theorem compraSortLe_total (a b : Compra) : (compraSortLe a b || compraSortLe b a) = true :=
  descDateCreated_total a.data a.created_at b.data b.created_at

theorem compraSortLe_trans (a b c : Compra) (h1 : compraSortLe a b = true)
    (h2 : compraSortLe b c = true) : compraSortLe a c = true :=
  descDateCreated_trans h1 h2

theorem vendaSortLe_total (a b : Venda) : (vendaSortLe a b || vendaSortLe b a) = true :=
  descDateCreated_total a.data a.created_at b.data b.created_at

theorem vendaSortLe_trans (a b c : Venda) (h1 : vendaSortLe a b = true)
    (h2 : vendaSortLe b c = true) : vendaSortLe a c = true :=
  descDateCreated_trans h1 h2

theorem boletoSortLe_total (a b : Boleto) : (boletoSortLe a b || boletoSortLe b a) = true := by
  simp [boletoSortLe]
  omega

theorem boletoSortLe_trans (a b c : Boleto) (h1 : boletoSortLe a b = true)
    (h2 : boletoSortLe b c = true) : boletoSortLe a c = true := by
  simp [boletoSortLe] at h1 h2 ⊢
  omega

theorem sum_map_mergeSort {α : Type} (le : α → α → Bool) (f : α → ℤ) (l : List α) :
    ((l.mergeSort le).map f).sum = (l.map f).sum :=
  ((List.mergeSort_perm l le).map f).sum_eq

theorem mem_mergeSort_iff {α : Type} (le : α → α → Bool) (a : α) (l : List α) :
    a ∈ l.mergeSort le ↔ a ∈ l :=
  (List.mergeSort_perm l le).mem_iff

theorem likeMatchFuel_congr :
    ∀ (f1 f2 : ℕ) (p s : List Char), p.length + s.length < f1 → p.length + s.length < f2 →
      likeMatchFuel f1 p s = likeMatchFuel f2 p s := by
  intro f1
  induction f1 with
  | zero => intro f2 p s h1 h2; omega
  | succ f ih =>
    intro f2 p s h1 h2
    match f2, h2 with
    | g + 1, h2 =>
      cases p with
      | nil => simp [likeMatchFuel]
      | cons c p =>
        simp only [likeMatchFuel]
        by_cases hc : c = '%'
        · rw [if_pos hc, if_pos hc]
          have hp : likeMatchFuel f p s = likeMatchFuel g p s := by
            apply ih <;> simp at h1 h2 ⊢ <;> omega
          rw [hp]
          cases s with
          | nil => rfl
          | cons d rest =>
            have hrec : likeMatchFuel f (c :: p) rest = likeMatchFuel g (c :: p) rest := by
              apply ih <;> simp at h1 h2 ⊢ <;> omega
            dsimp only
            rw [hrec]
        · rw [if_neg hc, if_neg hc]
          cases s with
          | nil => rfl
          | cons d rest =>
            have hrec : likeMatchFuel f p rest = likeMatchFuel g p rest := by
              apply ih <;> simp at h1 h2 ⊢ <;> omega
            dsimp only
            rw [hrec]

theorem likeMatchFuel_noWild :
    ∀ (f : ℕ) (p s : List Char), p.length + s.length < f → noWild p = true →
      likeMatchFuel f p s = eqCI p s := by
  intro f
  induction f with
  | zero => intro p s h1 _; omega
  | succ f ih =>
    intro p s h1 hw
    cases p with
    | nil =>
      cases s with
      | nil => rfl
      | cons d rest => rfl
    | cons c p =>
      have hw2 : (c ≠ '%' && c ≠ '_') = true ∧ noWild p = true := by
        simpa [noWild] using hw
      have hc1 : ¬(c = '%') := by
        intro h
        simp [h] at hw2
      have hc2 : (c = '_') = False := by
        simp only [eq_iff_iff, iff_false]
        intro h
        simp [h] at hw2
      simp only [likeMatchFuel, if_neg hc1]
      cases s with
      | nil => rfl
      | cons d rest =>
        have hrec : likeMatchFuel f p rest = eqCI p rest := by
          apply ih
          · simp at h1 ⊢; omega
          · exact hw2.2
        simp only [eqCI, hrec, hc2]
        simp

theorem likeMatch_noWild (p s : List Char) (hw : noWild p = true) :
    likeMatch p s = eqCI p s :=
  likeMatchFuel_noWild (p.length + s.length + 1) p s (by omega) hw

theorem calc_taxas_ex_19980 : calc_taxas ⟨20, 8, 400⟩ 19980 = 5594 := by
  unfold calc_taxas
  have e1 : ((19980 : ℤ) : ℚ) * ((20 : ℚ) / 100) = ((3996 : ℤ) : ℚ) := by norm_num
  have e2 : rndHE (((19980 : ℤ) : ℚ) * ((8 : ℚ) / 100)) = 1598 :=
    rndHE_lt_half _ 1598 (by norm_num) (by norm_num)
  rw [show (⟨20, 8, 400⟩ : Config).marketplace_percent = (20 : ℚ) from rfl,
    show (⟨20, 8, 400⟩ : Config).imposto_percent = (8 : ℚ) from rfl, e1, rndHE_intCast, e2]
  decide

theorem calc_taxas_zero (cfg : Config) : calc_taxas cfg 0 = 0 := by
  unfold calc_taxas
  have e1 : ((0 : ℤ) : ℚ) * (cfg.marketplace_percent / 100) = ((0 : ℤ) : ℚ) := by norm_num
  have e2 : ((0 : ℤ) : ℚ) * (cfg.imposto_percent / 100) = ((0 : ℤ) : ℚ) := by norm_num
  rw [e1, e2, rndHE_intCast]
  decide

/-! ## Claims -/

/-- C2: for every revenue R at least zero and every configuration, the
fee computation of the source equals the specification formula: round
of R times the marketplace percent over 100 plus round of R times the
tax percent over 100, the two terms rounded independently under the
round-half-even policy; and at R equal 10000 with rates 20 and 8 the
result is 2800. -/
theorem claim_c2 :
    (∀ (R : ℤ) (cfg : Config), 0 ≤ R → calc_taxas cfg R = computeFees_spec cfg R) ∧
      calc_taxas ⟨20, 8, 400⟩ 10000 = 2800 := by
  constructor
  · intro R cfg _
    unfold calc_taxas computeFees_spec
    rw [mul_div_assoc, mul_div_assoc]
  · unfold calc_taxas
    have e1 : ((10000 : ℤ) : ℚ) * ((20 : ℚ) / 100) = ((2000 : ℤ) : ℚ) := by norm_num
    have e2 : ((10000 : ℤ) : ℚ) * ((8 : ℚ) / 100) = ((800 : ℤ) : ℚ) := by norm_num
    rw [show (⟨20, 8, 400⟩ : Config).marketplace_percent = (20 : ℚ) from rfl,
      show (⟨20, 8, 400⟩ : Config).imposto_percent = (8 : ℚ) from rfl, e1, e2,
      rndHE_intCast, rndHE_intCast]
    decide

/-- Witness for C2 at the concrete revenue 10000. -/
theorem claim_c2_witness :
    0 ≤ (10000 : ℤ) ∧
      calc_taxas ⟨20, 8, 400⟩ 10000 = computeFees_spec ⟨20, 8, 400⟩ 10000 :=
  ⟨by decide, claim_c2.1 10000 ⟨20, 8, 400⟩ (by decide)⟩

/-- C1: for every sale line the dashboard computes revenue as unit
price times quantity, fees as calc_taxas of the revenue plus the fixed
per-item fee times quantity, and profit as revenue minus fees minus
resolved unit cost times quantity, with no clamping; at unit price
9990, quantity 2, override cost 3590, rates 20 and 8 and fixed fee 400
the line is revenue 19980, fees 6394, cost 7180, profit 6406; a line
can come out with negative profit, which is kept unchanged. -/
theorem claim_c1 :
    (∀ (cfg : Config) (compras : List Compra) (v : Venda),
        (dashLinha cfg compras v).receita = v.preco_unitario_cent * v.quantidade ∧
        (dashLinha cfg compras v).custo = custo_para_venda compras v ∧
        (dashLinha cfg compras v).taxas =
          calc_taxas cfg (v.preco_unitario_cent * v.quantidade) +
            cfg.taxa_fixa_cent * v.quantidade ∧
        (dashLinha cfg compras v).lucro =
          (dashLinha cfg compras v).receita - (dashLinha cfg compras v).taxas -
            custo_para_venda compras v * v.quantidade) ∧
      dashLinha ⟨20, 8, 400⟩ [] ⟨"Chaleira", 9990, 2, ⟨2025, 1, 10⟩, some 3590, 0⟩ =
        ⟨⟨"Chaleira", 9990, 2, ⟨2025, 1, 10⟩, some 3590, 0⟩, 9990, 19980, 3590, 6394, 6406⟩ ∧
      (dashLinha ⟨20, 8, 400⟩ [] ⟨"x", 0, 1, ⟨2025, 1, 10⟩, some 0, 0⟩).lucro = -400 := by
  refine ⟨fun cfg compras v => ⟨rfl, rfl, rfl, rfl⟩, ?_, ?_⟩
  · unfold dashLinha custo_para_venda
    have hm : calc_taxas ⟨20, 8, 400⟩ (9990 * 2) = 5594 := calc_taxas_ex_19980
    simp only [hm]
    norm_num
  · unfold dashLinha custo_para_venda
    have hz : calc_taxas ⟨20, 8, 400⟩ (0 * 1) = 0 := calc_taxas_zero _
    simp only [hz]
    norm_num

/-- C3, counterexample: a sale whose product name contains the percent
character.  The claim predicts a cost of 0 for the sale with product
name A-percent (no purchase is named A-percent), but the source passes
the name to ilike as a LIKE pattern, so the purchase named AB matches
and its unit cost 500 is returned. -/
theorem claim_c3_counterexample :
    custo_para_venda [⟨"AB", 500, 1, ⟨2025, 1, 5⟩, 0⟩]
        ⟨"A%", 1000, 1, ⟨2025, 1, 10⟩, none, 0⟩ = 500 ∧
      specResolveUnitCost [⟨"AB", 500, 1, ⟨2025, 1, 5⟩, 0⟩]
        ⟨"A%", 1000, 1, ⟨2025, 1, 10⟩, none, 0⟩ = 0 ∧
      (500 : ℤ) ≠ 0 := by
  refine ⟨?_, ?_, by decide⟩
  · have h1 : likeMatch "A%".data "AB".data = true := by decide
    simp [custo_para_venda, latest_compra_custo, List.mergeSort, h1]
  · have h1 : eqCI "A%".data "AB".data = false := by decide
    simp [specResolveUnitCost, List.mergeSort, h1]

/-- C3, amended: resolveUnitCost returns the explicit override when
present, including an override of exactly 0; with the override absent
it returns the unit cost of the purchase ranked first by date then
creation time descending among those whose product name matches the
product of the sale interpreted as a case-insensitive SQL LIKE pattern,
and 0 when no purchase matches; for a product name free of the LIKE
wildcard characters this matching coincides with case-insensitive
equality. -/
theorem claim_c3_amended :
    (∀ (compras : List Compra) (v : Venda) (k : ℤ),
        v.custo_unitario_override_cent = some k → custo_para_venda compras v = k) ∧
      (∀ (compras : List Compra) (v : Venda),
        v.custo_unitario_override_cent = none →
          custo_para_venda compras v = latest_compra_custo compras v.produto) ∧
      (∀ (compras : List Compra) (produto : String),
        (∀ c ∈ compras, likeMatch produto.data c.produto.data = false) →
          latest_compra_custo compras produto = 0) ∧
      (∀ (compras : List Compra) (produto : String) (c : Compra) (rest : List Compra),
        (compras.filter (fun b => likeMatch produto.data b.produto.data)).mergeSort
            compraSortLe = c :: rest →
          latest_compra_custo compras produto = c.custo_unitario_cent ∧
            c ∈ compras ∧ likeMatch produto.data c.produto.data = true ∧
            ∀ b ∈ compras, likeMatch produto.data b.produto.data = true →
              compraSortLe c b = true) ∧
      (∀ (p s : List Char), noWild p = true → likeMatch p s = eqCI p s) := by
  refine ⟨?_, ?_, ?_, ?_, likeMatch_noWild⟩
  · intro compras v k h
    unfold custo_para_venda
    rw [h]
  · intro compras v h
    unfold custo_para_venda
    rw [h]
  · intro compras produto h
    unfold latest_compra_custo
    have hf : compras.filter (fun c => likeMatch produto.data c.produto.data) = [] := by
      rw [List.filter_eq_nil_iff]
      intro c hc
      simp [h c hc]
    rw [hf, List.mergeSort_nil]
  · intro compras produto c rest h
    have hmem : c ∈ compras.filter (fun b => likeMatch produto.data b.produto.data) := by
      rw [← mem_mergeSort_iff compraSortLe, h]
      exact List.mem_cons_self c rest
    have hmem2 := List.mem_filter.mp hmem
    refine ⟨?_, hmem2.1, hmem2.2, ?_⟩
    · unfold latest_compra_custo
      rw [h]
    · intro b hb hmatch
      have hbf : b ∈ compras.filter (fun x => likeMatch produto.data x.produto.data) :=
        List.mem_filter.mpr ⟨hb, hmatch⟩
      rw [← mem_mergeSort_iff compraSortLe, h] at hbf
      rcases List.mem_cons.mp hbf with hbc | hbr
      · subst hbc
        exact descDateCreated_refl b.data b.created_at
      · have hs := List.sorted_mergeSort compraSortLe_trans compraSortLe_total
          (compras.filter (fun x => likeMatch produto.data x.produto.data))
        rw [h] at hs
        exact List.rel_of_sorted_cons hs b hbr

/-- Witness for C3 amended, at concrete inputs: an override of exactly
0 resolves to 0, an absent override with no purchase at all resolves to
0, and a wildcard-free pattern matches exactly like case-insensitive
equality. -/
theorem claim_c3_amended_witness :
    custo_para_venda [] ⟨"x", 100, 1, ⟨2025, 1, 10⟩, some 0, 0⟩ = 0 ∧
      custo_para_venda [] ⟨"x", 100, 1, ⟨2025, 1, 10⟩, none, 0⟩ =
        latest_compra_custo [] "x" ∧
      latest_compra_custo [] "x" = 0 ∧
      likeMatch "ab".data "AB".data = eqCI "ab".data "AB".data :=
  ⟨claim_c3_amended.1 [] ⟨"x", 100, 1, ⟨2025, 1, 10⟩, some 0, 0⟩ 0 rfl,
    claim_c3_amended.2.1 [] ⟨"x", 100, 1, ⟨2025, 1, 10⟩, none, 0⟩ rfl,
    claim_c3_amended.2.2.1 [] "x" (by intro c hc; cases hc),
    claim_c3_amended.2.2.2.2 "ab".data "AB".data (by decide)⟩

/-- C5: the claim asserts a lossless format/parse round trip with a
decimal comma.  The source formats 123456 minor units as the string
R-dollar 1.234.56 (the chained replaces also turn the decimal comma
into a period), and parsing that string falls back to 0: the round
trip loses the value.  Even below the grouping threshold the decimal
separator comes out as a period, not a comma. -/
theorem claim_c5_bug :
    moeda 123456 = "R$ 1.234.56" ∧
      parse_valor_to_centavos (moeda 123456) = Except.ok 0 ∧
      (0 : ℤ) ≠ 123456 ∧
      moeda 123 = "R$ 1.23" := by
  decide

/-- C6: the claim asserts the monetary parser never raises.  The input
NaN is accepted by the Decimal constructor, and the final int
conversion then raises outside the try block of the source.  The
percent parser does return 0.0 on malformed input, and the monetary
parser does return 0 on input the Decimal constructor rejects. -/
theorem claim_c6_bug :
    parse_valor_to_centavos "NaN" = Except.error () ∧
      parse_valor_to_centavos "Infinity" = Except.error () ∧
      parse_valor_to_centavos "abc" = Except.ok 0 ∧
      parse_percent "abc" = PyDec.fin 0 0 := by
  decide

/-- C4: the dashboard aggregation includes exactly the sales with date
in the half-open month interval, with December rolling over to January
of the next year as the exclusive bound; every total is the sum of the
corresponding per-line figure over the included sales; and when no sale
falls in the month the line list is empty and every total is 0. -/
theorem claim_c4 :
    (∀ (vendas : List Venda) (y m : ℕ) (v : Venda),
        v ∈ dashVendas vendas y m ↔
          v ∈ vendas ∧ dateLeB (month_bounds y m).1 v.data = true ∧
            dateLtB v.data (month_bounds y m).2 = true) ∧
      (∀ y : ℕ, (month_bounds y 12).1 = ⟨y, 12, 1⟩ ∧ (month_bounds y 12).2 = ⟨y + 1, 1, 1⟩) ∧
      (∀ y m : ℕ, m ≠ 12 →
        (month_bounds y m).1 = ⟨y, m, 1⟩ ∧ (month_bounds y m).2 = ⟨y, m + 1, 1⟩) ∧
      (∀ (cfg : Config) (compras : List Compra) (vendas : List Venda) (y m : ℕ),
        (dashboardModel cfg compras vendas y m).tot_receita =
            ((vendas.filter (inMonth y m)).map
              (fun v => (dashLinha cfg compras v).receita)).sum ∧
          (dashboardModel cfg compras vendas y m).tot_taxas =
            ((vendas.filter (inMonth y m)).map
              (fun v => (dashLinha cfg compras v).taxas)).sum ∧
          (dashboardModel cfg compras vendas y m).tot_custo =
            ((vendas.filter (inMonth y m)).map
              (fun v => (dashLinha cfg compras v).custo * v.quantidade)).sum ∧
          (dashboardModel cfg compras vendas y m).tot_lucro =
            ((vendas.filter (inMonth y m)).map
              (fun v => (dashLinha cfg compras v).lucro)).sum) ∧
      (∀ (cfg : Config) (compras : List Compra) (vendas : List Venda) (y m : ℕ),
        (∀ v ∈ vendas, inMonth y m v = false) →
          (dashboardModel cfg compras vendas y m).linhas = [] ∧
            (dashboardModel cfg compras vendas y m).tot_receita = 0 ∧
            (dashboardModel cfg compras vendas y m).tot_taxas = 0 ∧
            (dashboardModel cfg compras vendas y m).tot_custo = 0 ∧
            (dashboardModel cfg compras vendas y m).tot_lucro = 0) := by
  refine ⟨?_, fun y => ⟨rfl, rfl⟩, ?_, ?_, ?_⟩
  · intro vendas y m v
    unfold dashVendas
    rw [mem_mergeSort_iff, List.mem_filter]
    simp [inMonth]
  · intro y m hm
    unfold month_bounds
    rw [if_neg hm]
    exact ⟨rfl, rfl⟩
  · intro cfg compras vendas y m
    simp only [dashboardModel, dashVendas, List.map_map]
    exact ⟨sum_map_mergeSort _ _ _, sum_map_mergeSort _ _ _,
      sum_map_mergeSort _ _ _, sum_map_mergeSort _ _ _⟩
  · intro cfg compras vendas y m h
    have hf : vendas.filter (inMonth y m) = [] :=
      List.filter_eq_nil_iff.mpr (fun v hv => by simp [h v hv])
    simp [dashboardModel, dashVendas, hf]

/-- Witness for C4 at a concrete input: one sale in December 2024,
aggregated for January 2025, yields an empty line list and zero
totals. -/
theorem claim_c4_witness :
    (dashboardModel ⟨20, 8, 400⟩ [] [⟨"v", 1000, 1, ⟨2024, 12, 31⟩, none, 0⟩] 2025 1).linhas
        = [] ∧
      (dashboardModel ⟨20, 8, 400⟩ [] [⟨"v", 1000, 1, ⟨2024, 12, 31⟩, none, 0⟩] 2025
          1).tot_receita = 0 ∧
      (dashboardModel ⟨20, 8, 400⟩ [] [⟨"v", 1000, 1, ⟨2024, 12, 31⟩, none, 0⟩] 2025
          1).tot_taxas = 0 ∧
      (dashboardModel ⟨20, 8, 400⟩ [] [⟨"v", 1000, 1, ⟨2024, 12, 31⟩, none, 0⟩] 2025
          1).tot_custo = 0 ∧
      (dashboardModel ⟨20, 8, 400⟩ [] [⟨"v", 1000, 1, ⟨2024, 12, 31⟩, none, 0⟩] 2025
          1).tot_lucro = 0 :=
  claim_c4.2.2.2.2 ⟨20, 8, 400⟩ [] [⟨"v", 1000, 1, ⟨2024, 12, 31⟩, none, 0⟩] 2025 1
    (by decide)

/-- C7, counterexample: an update of a purchase with an empty product
field does not fail: the source assigns the stripped empty string and
commits, so the entity changes instead of staying unchanged. -/
theorem claim_c7_counterexample :
    update_compra ⟨"Widget", 100, 1, ⟨2025, 1, 10⟩, 7⟩ ⟨none, some "2,00", some "3", none⟩ =
        Except.ok ⟨"", 200, 3, ⟨2025, 1, 10⟩, 7⟩ ∧
      ("" : String) ≠ "Widget" := by
  decide

/-- C7, amended: only the invoice update validates its required text
field, failing with the 400 error when the stripped description is
empty; the purchase and sale updates perform no such validation and
store the stripped, possibly empty, product name. -/
theorem claim_c7_amended :
    (∀ (b : Boleto) (f : BoletoForm), pyStrip (orDefault f.descricao "") = "" →
        update_boleto b f = Except.error PyErr.badRequest) ∧
      (∀ (c : Compra) (f : CompraForm) (r : Compra), update_compra c f = Except.ok r →
        r.produto = pyStrip (orDefault f.produto "")) ∧
      (∀ (v : Venda) (f : VendaForm) (r : Venda), update_venda v f = Except.ok r →
        r.produto = pyStrip (orDefault f.produto "")) := by
  refine ⟨?_, ?_, ?_⟩
  · intro b f h
    simp only [update_boleto]
    rw [if_pos h]
  · intro c f r h
    unfold update_compra at h
    split at h
    · exact Except.noConfusion h
    · split at h
      · exact Except.noConfusion h
      · injection h with h2
        rw [← h2]
  · intro v f r h
    unfold update_venda at h
    split at h
    · exact Except.noConfusion h
    · split at h
      · exact Except.noConfusion h
      · dsimp only at h
        split at h
        · exact Except.noConfusion h
        · injection h with h2
          rw [← h2]

/-- Witness for C7 amended at concrete inputs: a boleto update with a
blank description fails with 400, and a purchase update with an absent
product field stores the empty product name. -/
theorem claim_c7_amended_witness :
    update_boleto ⟨"B", 100, none, "aberto", 7⟩ ⟨some "  ", some "1,00", none, none⟩ =
        Except.error PyErr.badRequest ∧
      (⟨"", 200, 3, ⟨2025, 1, 10⟩, 7⟩ : Compra).produto =
        pyStrip (orDefault (⟨none, some "2,00", some "3", none⟩ : CompraForm).produto "") :=
  ⟨claim_c7_amended.1 ⟨"B", 100, none, "aberto", 7⟩ ⟨some "  ", some "1,00", none, none⟩
      (by decide),
    claim_c7_amended.2.1 ⟨"Widget", 100, 1, ⟨2025, 1, 10⟩, 7⟩ ⟨none, some "2,00", some "3", none⟩
      ⟨"", 200, 3, ⟨2025, 1, 10⟩, 7⟩ (by decide)⟩

/-- C9, counterexample: two boletos where the listing order of the
source (created_at descending only) differs from the claimed order
(due date descending first): the boleto created later but due earlier
is listed first by the source. -/
theorem claim_c9_counterexample :
    boletosList
        [⟨"b1", 100, some ⟨2025, 12, 31⟩, "aberto", 1⟩,
         ⟨"b2", 200, some ⟨2025, 1, 1⟩, "aberto", 2⟩] =
        [⟨"b2", 200, some ⟨2025, 1, 1⟩, "aberto", 2⟩,
         ⟨"b1", 100, some ⟨2025, 12, 31⟩, "aberto", 1⟩] ∧
      specBoletosList
        [⟨"b1", 100, some ⟨2025, 12, 31⟩, "aberto", 1⟩,
         ⟨"b2", 200, some ⟨2025, 1, 1⟩, "aberto", 2⟩] =
        [⟨"b1", 100, some ⟨2025, 12, 31⟩, "aberto", 1⟩,
         ⟨"b2", 200, some ⟨2025, 1, 1⟩, "aberto", 2⟩] ∧
      ([⟨"b2", 200, some ⟨2025, 1, 1⟩, "aberto", 2⟩,
        ⟨"b1", 100, some ⟨2025, 12, 31⟩, "aberto", 1⟩] : List Boleto) ≠
        [⟨"b1", 100, some ⟨2025, 12, 31⟩, "aberto", 1⟩,
         ⟨"b2", 200, some ⟨2025, 1, 1⟩, "aberto", 2⟩] := by
  refine ⟨?_, ?_, by decide⟩
  · have h1 : boletoSortLe ⟨"b1", 100, some ⟨2025, 12, 31⟩, "aberto", 1⟩
        ⟨"b2", 200, some ⟨2025, 1, 1⟩, "aberto", 2⟩ = false := by decide
    simp [boletosList, List.mergeSort, h1]
  · have h1 : specBoletoSortLe ⟨"b1", 100, some ⟨2025, 12, 31⟩, "aberto", 1⟩
        ⟨"b2", 200, some ⟨2025, 1, 1⟩, "aberto", 2⟩ = true := by decide
    simp [specBoletosList, List.mergeSort, h1]

/-- C9, amended: the purchase and sale listings are permutations of the
stored rows sorted by date descending then creation time descending;
the boleto listing is a permutation of the stored rows sorted by
creation time descending only. -/
theorem claim_c9_amended :
    (∀ l : List Compra, (comprasList l).Perm l ∧
        List.Pairwise (fun a b => compraSortLe a b = true) (comprasList l)) ∧
      (∀ l : List Venda, (vendasList l).Perm l ∧
        List.Pairwise (fun a b => vendaSortLe a b = true) (vendasList l)) ∧
      (∀ l : List Boleto, (boletosList l).Perm l ∧
        List.Pairwise (fun a b => boletoSortLe a b = true) (boletosList l)) :=
  ⟨fun l => ⟨List.mergeSort_perm l _,
      List.sorted_mergeSort compraSortLe_trans compraSortLe_total l⟩,
    fun l => ⟨List.mergeSort_perm l _,
      List.sorted_mergeSort vendaSortLe_trans vendaSortLe_total l⟩,
    fun l => ⟨List.mergeSort_perm l _,
      List.sorted_mergeSort boletoSortLe_trans boletoSortLe_total l⟩⟩

/-- C8, counterexample: a submitted quantity of 0 is stored as 0, not
coerced to at least 1: the create succeeds and the stored quantity
violates the claimed lower bound. -/
theorem claim_c8_counterexample :
    create_compra ⟨2025, 1, 10⟩ 3 ⟨some "P", some "1,00", some "0", none⟩ =
        Except.ok ⟨"P", 100, 0, ⟨2025, 1, 10⟩, 3⟩ ∧
      ¬(1 ≤ (0 : ℤ)) := by
  decide

/-- C8, amended: the quantity defaults to 1 when the field is absent or
empty; otherwise the submitted string is passed to the int constructor
and the resulting integer is stored without any lower-bound coercion
(zero and negative values are stored as submitted, and non-integer
input raises), in purchase create, sale create and sale update. -/
theorem claim_c8_amended :
    (∀ (today : SDate) (now : ℕ) (f : CompraForm) (r : Compra),
        (f.quantidade = none ∨ f.quantidade = some "") →
          create_compra today now f = Except.ok r → r.quantidade = 1) ∧
      (∀ (today : SDate) (now : ℕ) (f : CompraForm) (r : Compra) (s : String),
        f.quantidade = some s → s ≠ "" →
          create_compra today now f = Except.ok r → pyInt s = Except.ok r.quantidade) ∧
      (∀ (today : SDate) (now : ℕ) (f : VendaForm) (r : Venda),
        (f.quantidade = none ∨ f.quantidade = some "") →
          create_venda today now f = Except.ok r → r.quantidade = 1) ∧
      (∀ (today : SDate) (now : ℕ) (f : VendaForm) (r : Venda) (s : String),
        f.quantidade = some s → s ≠ "" →
          create_venda today now f = Except.ok r → pyInt s = Except.ok r.quantidade) ∧
      (∀ (v : Venda) (f : VendaForm) (r : Venda),
        (f.quantidade = none ∨ f.quantidade = some "") →
          update_venda v f = Except.ok r → r.quantidade = 1) ∧
      (∀ (v : Venda) (f : VendaForm) (r : Venda) (s : String),
        f.quantidade = some s → s ≠ "" →
          update_venda v f = Except.ok r → pyInt s = Except.ok r.quantidade) := by
  refine ⟨?_, ?_, ?_, ?_, ?_, ?_⟩
  · intro today now f r h h2
    have hq : quantParse f.quantidade = Except.ok 1 := by
      rcases h with h | h <;> simp [quantParse, h]
    unfold create_compra at h2
    rw [hq] at h2
    dsimp only at h2
    split at h2
    · exact Except.noConfusion h2
    · split at h2
      · exact Except.noConfusion h2
      · injection h2 with h3
        rw [← h3]
  · intro today now f r s hs hne h2
    have hq : quantParse f.quantidade = pyInt s := by simp [quantParse, hs, hne]
    unfold create_compra at h2
    rw [hq] at h2
    cases hp : pyInt s with
    | error e =>
      rw [hp] at h2
      dsimp only at h2
      exact Except.noConfusion h2
    | ok k =>
      rw [hp] at h2
      dsimp only at h2
      split at h2
      · exact Except.noConfusion h2
      · split at h2
        · exact Except.noConfusion h2
        · injection h2 with h3
          rw [← h3]
  · intro today now f r h h2
    have hq : quantParse f.quantidade = Except.ok 1 := by
      rcases h with h | h <;> simp [quantParse, h]
    unfold create_venda at h2
    rw [hq] at h2
    dsimp only at h2
    split at h2
    · exact Except.noConfusion h2
    · split at h2
      · exact Except.noConfusion h2
      · split at h2
        · exact Except.noConfusion h2
        · injection h2 with h3
          rw [← h3]
  · intro today now f r s hs hne h2
    have hq : quantParse f.quantidade = pyInt s := by simp [quantParse, hs, hne]
    unfold create_venda at h2
    rw [hq] at h2
    cases hp : pyInt s with
    | error e =>
      rw [hp] at h2
      dsimp only at h2
      exact Except.noConfusion h2
    | ok k =>
      rw [hp] at h2
      dsimp only at h2
      split at h2
      · exact Except.noConfusion h2
      · split at h2
        · exact Except.noConfusion h2
        · split at h2
          · exact Except.noConfusion h2
          · injection h2 with h3
            rw [← h3]
  · intro v f r h h2
    have hq : quantParse f.quantidade = Except.ok 1 := by
      rcases h with h | h <;> simp [quantParse, h]
    unfold update_venda at h2
    rw [hq] at h2
    dsimp only at h2
    split at h2
    · exact Except.noConfusion h2
    · split at h2
      · exact Except.noConfusion h2
      · injection h2 with h3
        rw [← h3]
  · intro v f r s hs hne h2
    have hq : quantParse f.quantidade = pyInt s := by simp [quantParse, hs, hne]
    unfold update_venda at h2
    rw [hq] at h2
    cases hp : pyInt s with
    | error e =>
      rw [hp] at h2
      dsimp only at h2
      split at h2 <;> exact Except.noConfusion h2
    | ok k =>
      rw [hp] at h2
      dsimp only at h2
      split at h2
      · exact Except.noConfusion h2
      · split at h2
        · exact Except.noConfusion h2
        · injection h2 with h3
          rw [← h3]

/-- Witness for C8 amended at concrete inputs: an absent quantity field
stores 1, and a submitted quantity string 0 passes through the int
constructor into the stored row. -/
theorem claim_c8_amended_witness :
    (⟨"P", 100, 1, ⟨2025, 1, 10⟩, 3⟩ : Compra).quantidade = 1 ∧
      pyInt "0" =
        Except.ok (⟨"P", 100, 0, ⟨2025, 1, 10⟩, 3⟩ : Compra).quantidade :=
  ⟨claim_c8_amended.1 ⟨2025, 1, 10⟩ 3 ⟨some "P", some "1,00", none, none⟩
      ⟨"P", 100, 1, ⟨2025, 1, 10⟩, 3⟩ (Or.inl rfl) (by decide),
    claim_c8_amended.2.1 ⟨2025, 1, 10⟩ 3 ⟨some "P", some "1,00", some "0", none⟩
      ⟨"P", 100, 0, ⟨2025, 1, 10⟩, 3⟩ "0" rfl (by decide) (by decide)⟩

/-- C10: after a sale update the stored cost override is determined by
the submitted cost field alone: an absent or empty field clears the
override to absent, a nonempty field replaces it with the parsed value,
and two sales updated with the same form end up with the same
override regardless of their previous overrides. -/
theorem claim_c10 :
    (∀ (v : Venda) (f : VendaForm) (r : Venda),
        update_venda v f = Except.ok r → (f.custo = none ∨ f.custo = some "") →
          r.custo_unitario_override_cent = none) ∧
      (∀ (v : Venda) (f : VendaForm) (r : Venda) (s : String),
        update_venda v f = Except.ok r → f.custo = some s → s ≠ "" →
          ∃ k, parse_valor_to_centavos s = Except.ok k ∧
            r.custo_unitario_override_cent = some k) ∧
      (∀ (v1 v2 : Venda) (f : VendaForm) (r1 r2 : Venda),
        update_venda v1 f = Except.ok r1 → update_venda v2 f = Except.ok r2 →
          r1.custo_unitario_override_cent = r2.custo_unitario_override_cent) := by
  have hA : ∀ (v : Venda) (f : VendaForm) (r : Venda),
      update_venda v f = Except.ok r → (f.custo = none ∨ f.custo = some "") →
        r.custo_unitario_override_cent = none := by
    intro v f r h2 hc
    have hcs : orDefault f.custo "" = "" := by rcases hc with hc | hc <;> simp [orDefault, hc]
    unfold update_venda at h2
    rw [hcs] at h2
    dsimp only at h2
    split at h2
    · exact Except.noConfusion h2
    · split at h2
      · exact Except.noConfusion h2
      · rw [if_pos rfl] at h2
        dsimp only at h2
        injection h2 with h3
        rw [← h3]
  have hB : ∀ (v : Venda) (f : VendaForm) (r : Venda) (s : String),
      update_venda v f = Except.ok r → f.custo = some s → s ≠ "" →
        ∃ k, parse_valor_to_centavos s = Except.ok k ∧
          r.custo_unitario_override_cent = some k := by
    intro v f r s h2 hc hne
    have hcs : orDefault f.custo "" = s := by simp [orDefault, hc, hne]
    unfold update_venda at h2
    rw [hcs] at h2
    dsimp only at h2
    split at h2
    · exact Except.noConfusion h2
    · split at h2
      · exact Except.noConfusion h2
      · rw [if_neg hne] at h2
        cases hp : parse_valor_to_centavos s with
        | error e =>
          rw [hp] at h2
          dsimp only at h2
          exact Except.noConfusion h2
        | ok k =>
          rw [hp] at h2
          dsimp only at h2
          injection h2 with h3
          exact ⟨k, rfl, by rw [← h3]⟩
  refine ⟨hA, hB, ?_⟩
  intro v1 v2 f r1 r2 h1 h2
  rcases hc : f.custo with _ | s
  · rw [hA v1 f r1 h1 (Or.inl hc), hA v2 f r2 h2 (Or.inl hc)]
  · by_cases hs : s = ""
    · rw [hA v1 f r1 h1 (Or.inr (hs ▸ hc)), hA v2 f r2 h2 (Or.inr (hs ▸ hc))]
    · obtain ⟨k1, hp1, ho1⟩ := hB v1 f r1 s h1 hc hs
      obtain ⟨k2, hp2, ho2⟩ := hB v2 f r2 s h2 hc hs
      have hk : k1 = k2 := by
        have := hp1.symm.trans hp2
        injection this
      rw [ho1, ho2, hk]

/-- Witness for C10 at concrete inputs: updating a sale that carries an
override with a form whose cost field is absent clears the override,
and updating it with cost 2,50 stores the parsed 250. -/
theorem claim_c10_witness :
    (⟨"V", 100, 1, ⟨2025, 1, 10⟩, none, 7⟩ : Venda).custo_unitario_override_cent = none ∧
      ∃ k, parse_valor_to_centavos "2,50" = Except.ok k ∧
        (⟨"V", 100, 1, ⟨2025, 1, 10⟩, some 250, 7⟩ :
            Venda).custo_unitario_override_cent = some k :=
  ⟨claim_c10.1 ⟨"V", 100, 1, ⟨2025, 1, 10⟩, some 77, 7⟩
      ⟨some "V", some "1,00", some "1", none, none⟩
      ⟨"V", 100, 1, ⟨2025, 1, 10⟩, none, 7⟩ (by decide) (Or.inl rfl),
    claim_c10.2.1 ⟨"V", 100, 1, ⟨2025, 1, 10⟩, some 77, 7⟩
      ⟨some "V", some "1,00", some "1", none, some "2,50"⟩
      ⟨"V", 100, 1, ⟨2025, 1, 10⟩, some 250, 7⟩ "2,50" (by decide) rfl (by decide)⟩

end ProfitFlow
